import Mathlib

/-!
Verification development for the microscope-cam-helper repository.

The repository contains two Flask camera services:
  src/docker/docker-microscope/{camera_service.py, web_server.py}  (V4L2 via cv2)
  src/docker/csi-camera/{camera_service.py, web_server.py}         (rpicam subprocess)

This file gives a shallow embedding of the capture-store path handling
(batch delete, batch download, single-file view), the camera lifecycle
(start, stop, capture, stream generation) of both services, and the
process-wide service accessors, and proves properties about them.

Modelling conventions:
  - File paths are lists of components; a component is a list of characters.
    A caller-supplied filename string is modelled as `RawName`: the flag says
    whether the string started with a slash, and the components are the
    slash-separated pieces of the string.
  - `Path.resolve()` of pathlib (without symlinks, which the container image
    does not place inside /app/captures) is modelled lexically: empty and
    dot components vanish, a dot-dot component pops, popping at the root
    stays at the root.  `is_relative_to` is a components-prefix test.
  - `Path.suffix == ".jpg"` holds exactly when the final component ends in
    ".jpg" and is longer than ".jpg" itself (pathlib treats a bare ".jpg"
    as a hidden file with no suffix).
  - The filesystem is a list of canonical paths (for delete) or an
    association list from canonical paths to byte blobs (for download/view).
  - External failure modes the code reacts to (os.remove raising, a write
    stopping early, a read failing) are supplied as oracle arguments.
-/

namespace MicroscopeCam

/-- One path component, as the characters of the component string. -/
abbrev Comp := List Char

/-- A byte buffer (JPEG payloads, HTTP chunk bodies). -/
abbrev Blob := List Nat

/-- The characters of a string literal, used to build components. -/
def chars (s : String) : Comp := s.toList

/-- The bytes of a string literal, used to build protocol byte constants. -/
def strBytes (s : String) : Blob := s.toList.map Char.toNat

/-- The canonical capture directory `/app/captures`, shared by both services. -/
def capturesDir : List Comp := [chars "app", chars "captures"]

/-- A caller-supplied filename: whether the string began with `/`, and its
slash-separated components. -/
structure RawName where
  absolute : Bool
  comps : List Comp
deriving DecidableEq

/-- Lexical canonicalization: the first argument is the already-processed
part of the path in reverse; empty and `.` components are dropped, `..`
pops one component (staying put at the root), anything else is pushed. -/
def normLoop : List Comp → List Comp → List Comp
  | stack, [] => stack.reverse
  | stack, c :: rest =>
    if c = [] ∨ c = chars "." then normLoop stack rest
    else if c = chars ".." then normLoop stack.tail rest
    else normLoop (c :: stack) rest

/-- `(Path("/app/captures") / filename).resolve()`: an absolute filename
replaces the base (pathlib join semantics), a relative one is appended,
then the whole path is canonicalized. -/
def resolveName (n : RawName) : List Comp :=
  if n.absolute then normLoop [] n.comps
  else normLoop capturesDir.reverse n.comps

/-- `filepath.is_relative_to(captures_dir)` on canonical paths. -/
def insideCaptures (p : List Comp) : Bool := capturesDir.isPrefixOf p

/-- `Path(c).suffix == ".jpg"` for a single component. -/
def hasJpgSuffix (c : Comp) : Bool := (chars ".jpg").isSuffixOf c && decide (4 < c.length)

/-- `filepath.suffix == ".jpg"` for a canonical path. -/
def jpgPath (p : List Comp) : Bool :=
  match p.getLast? with
  | some c => hasJpgSuffix c
  | none => false

/-- Whether the caller-supplied filename contains a `..` segment. -/
def containsDotDot (n : RawName) : Bool := n.comps.contains (chars "..")

/-! ## Batch delete (docker-microscope web_server.py, batch_delete) -/

/-- Result of `/batch/delete`: the surviving filesystem plus the JSON body
`{'deleted': deleted, 'requested': requested}`. -/
structure DeleteResult where
  fs : List (List Comp)
  deleted : Nat
  requested : Nat
deriving DecidableEq

/-- The per-filename loop of `batch_delete`: resolve, skip anything not
inside the capture directory, skip missing files and non-jpg suffixes,
`os.remove` inside try/except (the `locked` oracle says the removal
raises, which is caught and not counted). -/
def deleteLoop (locked : List Comp → Bool) :
    List (List Comp) → List RawName → Nat → List (List Comp) × Nat
  | fs, [], n => (fs, n)
  | fs, f :: rest, n =>
    let p := resolveName f
    if insideCaptures p then
      if fs.contains p && jpgPath p then
        if locked p then deleteLoop locked fs rest n
        else deleteLoop locked (fs.erase p) rest (n + 1)
      else deleteLoop locked fs rest n
    else deleteLoop locked fs rest n

/-- `batch_delete`: run the loop over all requested names and report
`{'deleted': n, 'requested': len(files)}`. -/
def batchDelete (locked : List Comp → Bool) (fs : List (List Comp))
    (files : List RawName) : DeleteResult :=
  let r := deleteLoop locked fs files 0
  ⟨r.1, r.2, files.length⟩

/-- The names a batch delete acts on: resolved inside the capture
directory, a `.jpg` suffix, removable, and requested by some filename. -/
def delTargetB (locked : List Comp → Bool) (files : List RawName) (p : List Comp) : Bool :=
  insideCaptures p && jpgPath p && !locked p && files.any (fun f => resolveName f == p)

/-- The complement predicate: paths a batch delete leaves alone. -/
def delKeep (locked : List Comp → Bool) (files : List RawName) (p : List Comp) : Bool :=
  ! delTargetB locked files p

/-! ## Batch download (docker-microscope web_server.py, batch_download) -/

/-- Filesystem lookup on an association list of canonical paths. -/
def lookupFile (fs : List (List Comp × Blob)) (p : List Comp) : Option Blob :=
  match fs with
  | [] => none
  | e :: rest => if e.1 = p then some e.2 else lookupFile rest p

/-- The per-filename loop of `batch_download`: resolve, skip anything not
inside the capture directory, skip missing files and non-jpg suffixes,
otherwise add a zip entry named by the requested filename with the file
bytes.  The zip archive is a BytesIO buffer completed before the response
is built, so the whole entry list is the response. -/
def downloadLoop (fs : List (List Comp × Blob)) : List RawName → List (RawName × Blob)
  | [] => []
  | f :: rest =>
    let p := resolveName f
    if insideCaptures p then
      match lookupFile fs p with
      | some b => if jpgPath p then (f, b) :: downloadLoop fs rest else downloadLoop fs rest
      | none => downloadLoop fs rest
    else downloadLoop fs rest

/-- Modelled from the spec wording of `batch_export`: a name is accepted
when it resolves inside the capture directory to an existing `.jpg` file. -/
def acceptsName (fs : List (List Comp × Blob)) (f : RawName) : Bool :=
  let p := resolveName f
  insideCaptures p && (lookupFile fs p).isSome && jpgPath p

/-- Modelled from the spec wording of `batch_export`: the zip entry an
accepted name contributes, named by the requested filename and
byte-identical to the source file; rejected or missing names contribute
nothing. -/
def specExportEntry (fs : List (List Comp × Blob)) (f : RawName) : Option (RawName × Blob) :=
  if acceptsName fs f then (lookupFile fs (resolveName f)).map (fun b => (f, b)) else none

/-! ## Single-file view (docker-microscope web_server.py, get_capture) -/

/-- Response of `GET /captures/<filename>`. -/
inductive ViewResponse where
  | serve (body : Blob)
  | err400
  | err404
deriving DecidableEq

/-- Whether a view response actually serves file bytes. -/
def isServe : ViewResponse → Bool
  | .serve _ => true
  | _ => false

/-- `flask.send_from_directory('/app/captures', filename)`: werkzeug
safe-join rejects absolute names and any `..` segment with 404, otherwise
serves the file under the joined path (dot and empty segments collapse). -/
def sendFromDirectory (fs : List (List Comp × Blob)) (n : RawName) : ViewResponse :=
  if n.absolute || containsDotDot n then .err404
  else
    match lookupFile fs (capturesDir ++ n.comps.filter (fun c => ¬(c = [] ∨ c = chars "."))) with
    | some b => .serve b
    | none => .err404

/-- `get_capture`: resolve and confine (else 400), require existence and a
`.jpg` suffix (else 404), then hand the original filename to
`send_from_directory`. -/
def getCapture (fs : List (List Comp × Blob)) (n : RawName) : ViewResponse :=
  let p := resolveName n
  if insideCaptures p then
    if (lookupFile fs p).isSome && jpgPath p then sendFromDirectory fs n
    else .err404
  else .err400

/-! ## Batch endpoints: empty or absent file lists -/

/-- HTTP outcome of `/batch/delete`. -/
inductive DeleteHttp where
  | badRequest
  | ok (deleted requested : Nat)
deriving DecidableEq

/-- HTTP outcome of `/batch/download`. -/
inductive DownloadHttp where
  | badRequest
  | ok (entries : List (RawName × Blob))
deriving DecidableEq

/-- The `/batch/delete` handler: `data.get('files', [])` (absent key gives
the empty list), a falsy list returns 400 before touching the filesystem. -/
def batchDeleteEndpoint (locked : List Comp → Bool) (fs : List (List Comp))
    (payload : Option (List RawName)) : DeleteHttp × List (List Comp) :=
  match payload.getD [] with
  | [] => (.badRequest, fs)
  | f :: rest =>
    let r := batchDelete locked fs (f :: rest)
    (.ok r.deleted r.requested, r.fs)

/-- The `/batch/download` handler: same empty-list guard, then the in-memory
zip of the accepted entries. -/
def batchDownloadEndpoint (fs : List (List Comp × Blob))
    (payload : Option (List RawName)) : DownloadHttp :=
  match payload.getD [] with
  | [] => .badRequest
  | f :: rest => .ok (downloadLoop fs (f :: rest))

/-! ## Camera lifecycle: docker-microscope (camera_service.py, cv2/V4L2) -/

/-- Behaviour of the underlying V4L2 device as seen through cv2:
whether opening succeeds, whether the i-th read since open succeeds,
whether encoding the i-th frame succeeds, and the encoded bytes. -/
structure V4L2Cam where
  openOk : Bool
  readOk : Nat → Bool
  encodeOk : Nat → Bool
  jpegBytes : Nat → Blob

/-- State of a `CameraService`: the `self.camera` attribute (the
VideoCapture object created by the last `start`, or none), and how many
reads have been issued on it. -/
structure DMService where
  cam : Option V4L2Cam
  readCursor : Nat

/-- `CameraService.start`: create the VideoCapture (always stored in
`self.camera`), raise if not opened, perform three warm-up reads whose
results are discarded, then one verification read which decides success.
The raised exceptions are caught and turned into a `False` return; the
camera attribute keeps the object in every branch. -/
def dmStart (dev : V4L2Cam) : Bool × DMService :=
  if dev.openOk then
    if dev.readOk 3 then (true, ⟨some dev, 4⟩)
    else (false, ⟨some dev, 4⟩)
  else (false, ⟨some dev, 0⟩)

/-- `CameraService.stop`: release the camera and clear the attribute when
one is held, otherwise do nothing.  The flag reports whether `release`
was called. -/
def dmStop (s : DMService) : DMService × Bool :=
  match s.cam with
  | some _ => (⟨none, s.readCursor⟩, true)
  | none => (s, false)

/-- Whether `self.camera is not None and self.camera.isOpened()`. -/
def camReady (s : DMService) : Bool :=
  match s.cam with
  | some dev => dev.openOk
  | none => false

/-- How a `cv2.imwrite` call ends: file fully written, write stopped after
`k` bytes, or nothing written.  The source does not inspect the return
value of `imwrite`. -/
inductive WriteOutcome where
  | full
  | truncated (k : Nat)
  | noFile
deriving DecidableEq

/-- The filename `capture_<timestamp>.jpg` built by `capture_image`. -/
def captureFileName (stamp : Comp) : Comp := chars "capture_" ++ stamp ++ chars ".jpg"

/-- `CameraService.capture_image`: a failed frame read returns None and
touches nothing; otherwise the frame (taken here as its encoded bytes) is
written to the timestamp-named path and the path is returned, regardless
of how the write went. -/
def dmCaptureImage (frame : Option Blob) (w : WriteOutcome) (stamp : Comp)
    (fs : List (List Comp × Blob)) : Option Comp × List (List Comp × Blob) :=
  match frame with
  | none => (none, fs)
  | some jpeg =>
    let fname := captureFileName stamp
    let path := capturesDir ++ [fname]
    let fs' :=
      match w with
      | .full => (path, jpeg) :: fs
      | .truncated k => (path, jpeg.take k) :: fs
      | .noFile => fs
    (some fname, fs')

/-! ## MJPEG stream generation -/

/-- The declared content type of both `/stream` endpoints. -/
def streamMimetype : String := "multipart/x-mixed-replace; boundary=frame"

/-- The bytes of the boundary marker `--frame`. -/
def boundaryMarker : Blob := strBytes "--frame"

/-- The fixed per-chunk header written by `generate_stream`. -/
def dmChunkHeader : Blob := strBytes "--frame\r\nContent-Type: image/jpeg\r\n\r\n"

/-- The CRLF closing each chunk. -/
def crlfBytes : Blob := strBytes "\r\n"

/-- One framed chunk: boundary line, Content-Type header, JPEG payload. -/
def dmChunk (jpeg : Blob) : Blob := dmChunkHeader ++ jpeg ++ crlfBytes

/-- The `while True` body of `CameraService.generate_stream`, fuelled:
a failed read breaks the loop, a failed encode skips the frame, a
successful encode yields a framed chunk. -/
def dmStreamLoop (dev : V4L2Cam) : Nat → Nat → List Blob
  | _, 0 => []
  | i, Nat.succ fuel =>
    if dev.readOk i then
      if dev.encodeOk i then dmChunk (dev.jpegBytes i) :: dmStreamLoop dev (i + 1) fuel
      else dmStreamLoop dev (i + 1) fuel
    else []

/-- `CameraService.generate_stream`: yields nothing at all when the camera
is absent or not opened. -/
def dmGenerateStream (s : DMService) (fuel : Nat) : List Blob :=
  match s.cam with
  | some dev => if dev.openOk then dmStreamLoop dev s.readCursor fuel else []
  | none => []

/-- An HTTP chunked response: status code, declared content type, and the
chunks written to the body. -/
structure StreamHttp where
  status : Nat
  mimetype : String
  chunks : List Blob
deriving DecidableEq

/-- The docker-microscope `/stream` handler: it never starts the camera;
it always returns a 200 multipart response whose body is whatever the
generator produces (possibly nothing). -/
def dmStreamHandler (s : DMService) (fuel : Nat) : StreamHttp :=
  ⟨200, streamMimetype, dmGenerateStream s fuel⟩

/-! ## Camera lifecycle: csi-camera (camera_service.py, rpicam subprocess) -/

/-- Behaviour of the `rpicam-vid` subprocess: whether `Popen` succeeds,
whether the process is still alive after the one-second startup delay,
and the successive 4096-byte stdout reads (an empty read means EOF). -/
structure RpicamProc where
  launchOk : Bool
  aliveAfterDelay : Bool
  stdoutChunks : Nat → Blob

/-- State of a `CSICameraService`: the `self.process` attribute. -/
structure CSIService where
  process : Option RpicamProc

/-- `CSICameraService.start`: launch the subprocess (a raising `Popen`
leaves `self.process` untouched), sleep, and succeed exactly when the
process is still running.  No frame is read and nothing is discarded. -/
def csiStart (dev : RpicamProc) (s : CSIService) : Bool × CSIService :=
  if dev.launchOk then
    if dev.aliveAfterDelay then (true, ⟨some dev⟩)
    else (false, ⟨some dev⟩)
  else (false, s)

/-- How a csi subprocess was brought down: terminate honoured within the
five-second grace period, or force-killed after it expired. -/
inductive StopMode where
  | graceful
  | forced
deriving DecidableEq

/-- `CSICameraService.stop`: terminate, wait up to five seconds, kill on
timeout, clear the attribute; a no-op without a process. -/
def csiStop (graceExit : Bool) (s : CSIService) : CSIService × Option StopMode :=
  match s.process with
  | some _ => (⟨none⟩, some (if graceExit then .graceful else .forced))
  | none => (s, none)

/-- The read loop of `CSICameraService.generate_stream`, fuelled: yield
each raw 4096-byte stdout read unchanged, stopping at the first empty
read.  No boundary or header is added. -/
def csiReadLoop (dev : RpicamProc) : Nat → Nat → List Blob
  | _, 0 => []
  | i, Nat.succ fuel =>
    let c := dev.stdoutChunks i
    if c.isEmpty then [] else c :: csiReadLoop dev (i + 1) fuel

/-- `CSICameraService.generate_stream`: nothing without a process. -/
def csiGenerateStream (s : CSIService) (fuel : Nat) : List Blob :=
  match s.process with
  | some dev => csiReadLoop dev 0 fuel
  | none => []

/-- The csi-camera `/stream` handler: start the camera, answer 500 with an
empty body when that fails, otherwise stream with the multipart content
type and stop the camera when the generator is exhausted. -/
def csiStreamHandler (dev : RpicamProc) (s : CSIService) (fuel : Nat) :
    StreamHttp × CSIService :=
  let r := csiStart dev s
  if r.1 then
    (⟨200, streamMimetype, csiGenerateStream r.2 fuel⟩, (csiStop true r.2).1)
  else (⟨500, "text/html", []⟩, r.2)

/-- Index list `[i, i+1, ..., i+fuel-1]`, used to state that the csi
stream is a raw passthrough of the successive stdout reads. -/
def idxList : Nat → Nat → List Nat
  | _, 0 => []
  | i, Nat.succ fuel => i :: idxList (i + 1) fuel

/-- A chunk that carries the multipart framing of the declared
`boundary=frame` protocol: it begins with the `--frame` boundary followed
by the Content-Type header block and ends with CRLF. -/
def framedChunk (c : Blob) : Bool :=
  dmChunkHeader.isPrefixOf c && crlfBytes.isSuffixOf c

/-- How `rpicam-still` (csi `capture_image`) ends: a zero exit status with
the file fully written, or a failing exit status with whatever bytes the
tool left at the output path (possibly none). -/
inductive StillOutcome where
  | ok (bytes : Blob)
  | fail (leftover : Option Blob)
deriving DecidableEq

/-- The filename `csi_capture_<timestamp>.jpg`. -/
def csiCaptureFileName (stamp : Comp) : Comp := chars "csi_capture_" ++ stamp ++ chars ".jpg"

/-- `CSICameraService.capture_image`: run `rpicam-still` onto the final
path; on success return the path, on `CalledProcessError` return None
without removing whatever the tool wrote there. -/
def csiCaptureImage (o : StillOutcome) (stamp : Comp)
    (fs : List (List Comp × Blob)) : Option Comp × List (List Comp × Blob) :=
  let fname := csiCaptureFileName stamp
  let path := capturesDir ++ [fname]
  match o with
  | .ok b => (some fname, (path, b) :: fs)
  | .fail (some part) => (none, (path, part) :: fs)
  | .fail none => (none, fs)

/-! ## Process-wide service accessors -/

/-- Per-process world for the module-level service accessors: the
docker-microscope module global `_camera_service` (as an instance
identifier) and a counter of constructed instances. -/
structure ServiceWorld where
  dmSingleton : Option Nat
  nextId : Nat
deriving DecidableEq

/-- docker-microscope `get_camera_service`: construct on first call, store
in the module global, and return the stored instance ever after. -/
def dmGetCameraService (w : ServiceWorld) : Nat × ServiceWorld :=
  match w.dmSingleton with
  | some i => (i, w)
  | none => (w.nextId, ⟨some w.nextId, w.nextId + 1⟩)

/-- csi-camera `get_camera_service`: a factory, constructing a fresh
`CSICameraService` on every call. -/
def csiGetCameraService (w : ServiceWorld) : Nat × ServiceWorld :=
  (w.nextId, ⟨w.dmSingleton, w.nextId + 1⟩)

/-! ## Concrete environments used by counterexamples and witnesses -/

/-- A removal oracle under which `os.remove` never raises. -/
def noLock : List Comp → Bool := fun _ => false

/-- A capture directory holding the single file `capture_a.jpg`. -/
def oneFileFs : List (List Comp) := [capturesDir ++ [chars "capture_a.jpg"]]

/-- The same directory with file contents, for download and view. -/
def oneBlobFs : List (List Comp × Blob) := [(capturesDir ++ [chars "capture_a.jpg"], [1, 2, 3])]

/-- The filename string `x/../capture_a.jpg`: it contains `..` but
canonicalizes back inside the capture directory. -/
def trickyName : RawName := ⟨false, [chars "x", chars "..", chars "capture_a.jpg"]⟩

/-- The filename string `../secret.jpg`: canonicalizes outside. -/
def escapeName : RawName := ⟨false, [chars "..", chars "secret.jpg"]⟩

/-! ## C1 — path confinement of view, download and delete -/

/-- C1 counterexample: the claim says every filename containing `..` is
rejected with no filesystem operation, but `x/../capture_a.jpg` contains
`..`, canonicalizes back inside the capture directory, and batch delete
removes the file and counts it as deleted. -/
theorem c1_counterexample :
    containsDotDot trickyName = true ∧
    (batchDelete noLock oneFileFs [trickyName]).deleted = 1 ∧
    (batchDelete noLock oneFileFs [trickyName]).fs = [] := by decide

/-- C1 (amended): rejection is decided by the canonicalized path, not by
the filename text: whenever a caller-supplied name canonicalizes outside
the capture directory, or its canonical path lacks a real `.jpg` suffix,
batch delete leaves the filesystem unchanged and counts nothing, batch
download contributes no zip entry, and the view endpoint answers an error
instead of serving bytes. -/
theorem c1_path_confinement (locked : List Comp → Bool) (fs : List (List Comp))
    (dfs gfs : List (List Comp × Blob)) (n : RawName)
    (h : insideCaptures (resolveName n) = false ∨ jpgPath (resolveName n) = false) :
    (batchDelete locked fs [n]).fs = fs ∧
    (batchDelete locked fs [n]).deleted = 0 ∧
    downloadLoop dfs [n] = [] ∧
    isServe (getCapture gfs n) = false := by
  refine ⟨?_, ?_, ?_, ?_⟩
  · rcases h with h | h <;> simp [batchDelete, deleteLoop, h]
  · rcases h with h | h <;> simp [batchDelete, deleteLoop, h]
  · rcases h with h | h
    · simp [downloadLoop, h]
    · simp [downloadLoop, h]
      cases lookupFile dfs (resolveName n) <;> simp
  · rcases h with h | h
    · simp [getCapture, h, isServe]
    · unfold getCapture
      cases hic : insideCaptures (resolveName n) <;> simp [hic, h, isServe]

/-- C1 witness: the amended theorem applied to `../secret.jpg` over the
one-file capture directory. -/
theorem c1_witness :
    (insideCaptures (resolveName escapeName) = false ∨
      jpgPath (resolveName escapeName) = false) ∧
    ((batchDelete noLock oneFileFs [escapeName]).fs = oneFileFs ∧
     (batchDelete noLock oneFileFs [escapeName]).deleted = 0 ∧
     downloadLoop oneBlobFs [escapeName] = [] ∧
     isServe (getCapture oneBlobFs escapeName) = false) :=
  ⟨Or.inl (by decide),
   c1_path_confinement noLock oneFileFs oneBlobFs oneBlobFs escapeName (Or.inl (by decide))⟩

/-! ## C2 — one camera-service instance per process -/

/-- A process that has not yet constructed any service instance. -/
def freshWorld : ServiceWorld := ⟨none, 0⟩

/-- C2 counterexample: in the csi-camera service two successive calls to
`get_camera_service` return two distinct instances, so the accessor is
not a process-wide singleton there. -/
theorem c2_counterexample :
    (csiGetCameraService freshWorld).1 ≠
      (csiGetCameraService (csiGetCameraService freshWorld).2).1 := by decide

/-- C2 (amended): the docker-microscope accessor is a lazy process-wide
singleton — after any call, every further call returns the same instance
and leaves the world unchanged, and the first call in a fresh world
constructs the instance it returns — while the csi-camera accessor
constructs a new instance on every call. -/
theorem c2_singleton (w : ServiceWorld) :
    (dmGetCameraService (dmGetCameraService w).2).1 = (dmGetCameraService w).1 ∧
    (dmGetCameraService (dmGetCameraService w).2).2 = (dmGetCameraService w).2 ∧
    (dmGetCameraService ⟨none, w.nextId⟩).1 = w.nextId ∧
    (dmGetCameraService ⟨none, w.nextId⟩).2.dmSingleton = some w.nextId ∧
    (csiGetCameraService w).2.nextId = w.nextId + 1 := by
  obtain ⟨s, n⟩ := w
  cases s <;> simp [dmGetCameraService, csiGetCameraService]

/-! ## C5 — start succeeds only after warm-up and a verification read -/

/-- An rpicam subprocess that launches and stays alive but whose stdout
never produces a byte: no frame read could ever succeed on it. -/
def deadRpicam : RpicamProc := ⟨true, true, fun _ => []⟩

/-- C5 counterexample: the csi-camera `start` reports success for a device
on which no verification frame read succeeded (none was even attempted —
its stream is empty from the first read on), refuting the claim that
success is reported only after a successful verification read. -/
theorem c5_counterexample :
    (csiStart deadRpicam ⟨none⟩).1 = true ∧
    csiGenerateStream (csiStart deadRpicam ⟨none⟩).2 5 = [] ∧
    deadRpicam.stdoutChunks 0 = [] := by decide

/-- C5 (amended): the docker-microscope `start` succeeds exactly when the
device opens and the verification read — the fourth read, after three
discarded warm-up reads — succeeds, and on every outcome it keeps the
created camera object in the handle (failure does not release it); the
csi-camera `start` succeeds exactly when the subprocess launches and is
still alive after the startup delay, with no warm-up discard and no
verification read; both starts depend only on the device, so a later
call may retry after a failure. -/
theorem c5_start_verification (dev : V4L2Cam) (cdev : RpicamProc) (s : CSIService) :
    ((dmStart dev).1 = true ↔ (dev.openOk = true ∧ dev.readOk 3 = true)) ∧
    (dmStart dev).2.cam = some dev ∧
    (dmStart dev).2.readCursor = (if dev.openOk = true then 4 else 0) ∧
    ((csiStart cdev s).1 = true ↔
      (cdev.launchOk = true ∧ cdev.aliveAfterDelay = true)) := by
  cases hopen : dev.openOk <;> cases hread : dev.readOk 3 <;>
    cases hl : cdev.launchOk <;> cases ha : cdev.aliveAfterDelay <;>
      simp [dmStart, csiStart, hopen, hread, hl, ha]

/-! ## C6 — stream handler when the device cannot be opened -/

/-- A V4L2 device that cannot be opened. -/
def deadCam : V4L2Cam := ⟨false, fun _ => false, fun _ => false, fun _ => []⟩

/-- A docker-microscope service whose camera attribute holds the unopened
device. -/
def deadDMService : DMService := ⟨some deadCam, 0⟩

/-- An rpicam subprocess whose launch fails. -/
def noLaunchRpicam : RpicamProc := ⟨false, false, fun _ => []⟩

/-- A csi service that has never started a process. -/
def csiIdle : CSIService := ⟨none⟩

/-- C6 counterexample: with a camera that cannot be opened, the
docker-microscope `/stream` handler answers 200 — not a server-error
status — with an empty multipart body, refuting the claim that every
stream request against an unopenable device gets a server-error status. -/
theorem c6_counterexample :
    deadCam.openOk = false ∧
    (dmStreamHandler deadDMService 5).status = 200 ∧
    (dmStreamHandler deadDMService 5).chunks = [] := ⟨rfl, rfl, rfl⟩

/-- C6 (amended): when the device cannot be opened, neither handler ever
writes a multipart chunk; the csi-camera handler answers 500, while the
docker-microscope handler (which never opens the device itself) answers
200 with an immediately-ended empty body. -/
theorem c6_stream_open_failure (cdev : RpicamProc) (s : CSIService) (fuel : Nat)
    (sdm : DMService) (fdm : Nat)
    (hcsi : (csiStart cdev s).1 = false) (hdm : camReady sdm = false) :
    (csiStreamHandler cdev s fuel).1.status = 500 ∧
    (csiStreamHandler cdev s fuel).1.chunks = [] ∧
    (dmStreamHandler sdm fdm).status = 200 ∧
    (dmStreamHandler sdm fdm).chunks = [] := by
  refine ⟨?_, ?_, rfl, ?_⟩
  · simp [csiStreamHandler, hcsi]
  · simp [csiStreamHandler, hcsi]
  · obtain ⟨c, rc⟩ := sdm
    cases c with
    | none => simp [dmStreamHandler, dmGenerateStream]
    | some dev =>
      simp [camReady] at hdm
      simp [dmStreamHandler, dmGenerateStream, hdm]

/-- C6 witness: the amended theorem applied to a failed csi launch and the
unopenable docker-microscope camera. -/
theorem c6_witness :
    ((csiStart noLaunchRpicam csiIdle).1 = false ∧ camReady deadDMService = false) ∧
    ((csiStreamHandler noLaunchRpicam csiIdle 3).1.status = 500 ∧
     (csiStreamHandler noLaunchRpicam csiIdle 3).1.chunks = [] ∧
     (dmStreamHandler deadDMService 3).status = 200 ∧
     (dmStreamHandler deadDMService 3).chunks = []) :=
  ⟨⟨rfl, rfl⟩, c6_stream_open_failure noLaunchRpicam csiIdle 3 deadDMService 3 rfl rfl⟩

/-! ## C7 — capture atomicity -/

/-- A fixed capture timestamp. -/
def shortStamp : Comp := chars "20250101_000000"

/-- C7 counterexample: a write that stops after two of four bytes still
makes `capture_image` report success with the public filename, and the
truncated file sits at the public path — the claim that a capture either
writes completely or leaves the directory unchanged fails. -/
theorem c7_counterexample :
    dmCaptureImage (some [1, 2, 3, 4]) (.truncated 2) shortStamp [] =
      (some (captureFileName shortStamp),
       [(capturesDir ++ [captureFileName shortStamp], [1, 2])]) ∧
    ([1, 2] : Blob) ≠ [1, 2, 3, 4] := by decide

/-- C7 (amended): only a failed frame read leaves the capture directory
unchanged (docker-microscope) — once a frame is read, `capture_image`
returns the timestamp-named file no matter how the write went, without
verifying or cleaning up; the csi `capture_image` reports failure when
`rpicam-still` fails but leaves any bytes the tool wrote at the public
path, and on success writes the full file and returns its name. -/
theorem c7_capture_no_atomicity (w : WriteOutcome) (stamp : Comp)
    (fs : List (List Comp × Blob)) (jpeg leftover : Blob) :
    dmCaptureImage none w stamp fs = (none, fs) ∧
    (dmCaptureImage (some jpeg) w stamp fs).1 = some (captureFileName stamp) ∧
    csiCaptureImage (.fail (some leftover)) stamp fs =
      (none, (capturesDir ++ [csiCaptureFileName stamp], leftover) :: fs) ∧
    csiCaptureImage (.ok jpeg) stamp fs =
      (some (csiCaptureFileName stamp),
       (capturesDir ++ [csiCaptureFileName stamp], jpeg) :: fs) := by
  cases w <;> simp [dmCaptureImage, csiCaptureImage]

/-! ## C8 — stop is idempotent and safe from any state -/

/-- C8: `stop` is idempotent and safe from any state in both services:
after any stop the handle is cleared; a second stop changes nothing and
releases nothing; the docker-microscope stop calls `release` exactly when
a camera was held, and the csi stop clears the process attribute. -/
theorem c8_stop_idempotent (s : DMService) (t : CSIService) (g g' : Bool) :
    (dmStop s).1.cam = none ∧
    dmStop (dmStop s).1 = ((dmStop s).1, false) ∧
    (dmStop s).2 = s.cam.isSome ∧
    (csiStop g t).1.process = none ∧
    csiStop g' (csiStop g t).1 = ((csiStop g t).1, none) := by
  obtain ⟨c, rc⟩ := s
  obtain ⟨p⟩ := t
  cases c <;> cases p <;> simp [dmStop, csiStop]

/-! ## C10 — empty or absent batch file lists -/

/-- C10: a `files` list that is absent (the `data.get` default) or empty
makes both batch endpoints answer 400 with the filesystem untouched,
rather than producing an empty archive or a zero count. -/
theorem c10_empty_batch (locked : List Comp → Bool) (fs : List (List Comp))
    (dfs : List (List Comp × Blob)) (payload : Option (List RawName))
    (h : payload = none ∨ payload = some []) :
    batchDeleteEndpoint locked fs payload = (.badRequest, fs) ∧
    batchDownloadEndpoint dfs payload = .badRequest := by
  rcases h with h | h <;> subst h <;> exact ⟨rfl, rfl⟩

/-- C10 witness: the theorem applied to an absent `files` key over the
one-file capture directory. -/
theorem c10_witness :
    ((none : Option (List RawName)) = none ∨
      (none : Option (List RawName)) = some []) ∧
    (batchDeleteEndpoint noLock oneFileFs none = (.badRequest, oneFileFs) ∧
     batchDownloadEndpoint oneBlobFs none = .badRequest) :=
  ⟨Or.inl rfl, c10_empty_batch noLock oneFileFs oneBlobFs none (Or.inl rfl)⟩

/-! ## C3 — batch delete semantics -/

/-- `List.contains` agrees with membership on canonical paths. -/
theorem containsPath_iff_mem (l : List (List Comp)) (p : List Comp) :
    l.contains p = true ↔ p ∈ l := by
  simp [List.contains, List.elem_iff]

/-- Unfolding `delTargetB` over a cons of the request list. -/
theorem delTargetB_cons (locked : List Comp → Bool) (f : RawName)
    (rest : List RawName) (a : List Comp) :
    delTargetB locked (f :: rest) a =
      ((insideCaptures a && jpgPath a && !locked a && (resolveName f == a)) ||
        delTargetB locked rest a) := by
  unfold delTargetB
  rw [List.any_cons, Bool.and_or_distrib_left]

/-- The deleted counter plus the surviving file count is invariant across
the delete loop: every increment of the counter erases exactly one file. -/
theorem deleteLoop_length (locked : List Comp → Bool) (files : List RawName) :
    ∀ (fs : List (List Comp)) (n : Nat),
      (deleteLoop locked fs files n).2 + (deleteLoop locked fs files n).1.length
        = n + fs.length := by
  induction files with
  | nil => intro fs n; rfl
  | cons f rest ih =>
    intro fs n
    simp only [deleteLoop]
    by_cases hic : insideCaptures (resolveName f) = true
    case neg => rw [if_neg hic]; exact ih fs n
    case pos =>
    rw [if_pos hic]
    by_cases hcj : (fs.contains (resolveName f) && jpgPath (resolveName f)) = true
    case neg => rw [if_neg hcj]; exact ih fs n
    case pos =>
    rw [if_pos hcj]
    by_cases hlk : locked (resolveName f) = true
    case pos => rw [if_pos hlk]; exact ih fs n
    case neg =>
    rw [if_neg hlk]
    have hmem : resolveName f ∈ fs := by
      rw [Bool.and_eq_true] at hcj
      exact (containsPath_iff_mem fs _).mp hcj.1
    have hpos : 0 < fs.length := List.length_pos_of_mem hmem
    have hlen := List.length_erase_of_mem hmem
    have hih := ih (fs.erase (resolveName f)) (n + 1)
    omega

/-- The files surviving a batch delete are exactly the original files that
are not delete targets. -/
theorem deleteLoop_filter (locked : List Comp → Bool) (files : List RawName) :
    ∀ (fs : List (List Comp)) (n : Nat), fs.Nodup →
      (deleteLoop locked fs files n).1 = fs.filter (delKeep locked files) := by
  induction files with
  | nil =>
    intro fs n _
    refine (List.filter_eq_self.mpr ?_).symm
    intro a _
    simp [delKeep, delTargetB]
  | cons f rest ih =>
    intro fs n hnd
    simp only [deleteLoop]
    by_cases hic : insideCaptures (resolveName f) = true
    case neg =>
      rw [if_neg hic, ih fs n hnd]
      refine List.filter_congr ?_
      intro a _
      simp only [delKeep, delTargetB_cons]
      by_cases hap : resolveName f = a
      · subst hap
        simp only [Bool.not_eq_true] at hic
        simp [hic]
      · simp [beq_iff_eq, hap]
    case pos =>
    rw [if_pos hic]
    by_cases hcj : (fs.contains (resolveName f) && jpgPath (resolveName f)) = true
    case neg =>
      rw [if_neg hcj, ih fs n hnd]
      refine List.filter_congr ?_
      intro a ha
      simp only [delKeep, delTargetB_cons]
      by_cases hap : resolveName f = a
      · subst hap
        have hcon : (fs.contains (resolveName f)) = true :=
          (containsPath_iff_mem fs _).mpr ha
        have hjpg : jpgPath (resolveName f) = false := by
          cases hj : jpgPath (resolveName f)
          · rfl
          · exact absurd (by simp [hcon, hj, ha]) hcj
        simp [hjpg]
      · simp [beq_iff_eq, hap]
    case pos =>
    have hjpg : jpgPath (resolveName f) = true := by
      rw [Bool.and_eq_true] at hcj
      exact hcj.2
    by_cases hlk : locked (resolveName f) = true
    case pos =>
      rw [if_pos hcj, if_pos hlk, ih fs n hnd]
      refine List.filter_congr ?_
      intro a _
      simp only [delKeep, delTargetB_cons]
      by_cases hap : resolveName f = a
      · subst hap
        simp [hlk]
      · simp [beq_iff_eq, hap]
    case neg =>
      rw [if_pos hcj, if_neg hlk,
        ih (fs.erase (resolveName f)) (n + 1) (hnd.erase _),
        hnd.erase_eq_filter, List.filter_filter]
      refine List.filter_congr ?_
      intro a _
      simp only [delKeep, delTargetB_cons]
      simp only [Bool.not_eq_true] at hlk
      by_cases hap : resolveName f = a
      · subst hap
        simp [hic, hjpg, hlk]
      · have h1 : (resolveName f == a) = false := beq_eq_false_iff_ne.mpr hap
        have h2 : (a != resolveName f) = true := bne_iff_ne.mpr (Ne.symm hap)
        simp [h1, h2]

/-- C3: batch delete reports `requested` as the length of the input list,
its `deleted` count is exactly the number of files removed from the
capture directory, and the surviving directory is exactly the original
minus the names that resolve inside, exist with a `.jpg` suffix, and
whose removal does not raise — every other name is skipped without
aborting the rest of the batch. -/
theorem c3_batch_delete (locked : List Comp → Bool) (fs : List (List Comp))
    (files : List RawName) (hnd : fs.Nodup) :
    (batchDelete locked fs files).requested = files.length ∧
    (batchDelete locked fs files).deleted +
        (batchDelete locked fs files).fs.length = fs.length ∧
    (batchDelete locked fs files).fs = fs.filter (delKeep locked files) := by
  refine ⟨rfl, ?_, ?_⟩
  · simpa [batchDelete] using deleteLoop_length locked files fs 0
  · simpa [batchDelete] using deleteLoop_filter locked files fs 0 hnd

/-- A second capture file, for the batch-delete witness. -/
def twoFileFs : List (List Comp) :=
  [capturesDir ++ [chars "capture_a.jpg"], capturesDir ++ [chars "capture_b.jpg"]]

/-- The request `{capture_a.jpg, capture_b.jpg, nonexistent.jpg}`. -/
def delRequest : List RawName :=
  [⟨false, [chars "capture_a.jpg"]⟩, ⟨false, [chars "capture_b.jpg"]⟩,
   ⟨false, [chars "nonexistent.jpg"]⟩]

/-- C3 witness: the theorem applied to a directory holding `capture_a.jpg`
and `capture_b.jpg` and the request list of those two plus a missing
name. -/
theorem c3_witness :
    (batchDelete noLock twoFileFs delRequest).requested = delRequest.length ∧
    (batchDelete noLock twoFileFs delRequest).deleted +
        (batchDelete noLock twoFileFs delRequest).fs.length = twoFileFs.length ∧
    (batchDelete noLock twoFileFs delRequest).fs =
      twoFileFs.filter (delKeep noLock delRequest) :=
  c3_batch_delete noLock twoFileFs delRequest (by decide)

/-! ## C4 — batch export builds exactly the accepted entries -/

/-- C4: the zip archive of `/batch/download` — built completely in memory
before the response is returned — contains exactly one entry per
accepted requested name (resolves inside the capture directory to an
existing `.jpg` file), in request order, named by the requested filename
and byte-identical to the source file, while rejected and missing names
are skipped without aborting the batch. -/
theorem c4_batch_export (fs : List (List Comp × Blob)) (files : List RawName) :
    downloadLoop fs files = files.filterMap (specExportEntry fs) := by
  induction files with
  | nil => rfl
  | cons f rest ih =>
    have hstep : specExportEntry fs f =
        if insideCaptures (resolveName f) && (lookupFile fs (resolveName f)).isSome
            && jpgPath (resolveName f) then
          (lookupFile fs (resolveName f)).map (fun b => (f, b))
        else none := rfl
    rw [List.filterMap_cons, hstep]
    simp only [downloadLoop]
    cases hic : insideCaptures (resolveName f) <;>
      cases hl : lookupFile fs (resolveName f) <;>
        cases hj : jpgPath (resolveName f) <;>
          simp [hic, hl, hj, ih]

/-! ## C9 — multipart framing of stream chunks -/

/-- Every chunk produced by the docker-microscope generator carries the
full multipart framing. -/
theorem dmChunk_framed (b : Blob) : framedChunk (dmChunk b) = true := by
  unfold framedChunk dmChunk
  rw [Bool.and_eq_true]
  constructor
  · rw [List.isPrefixOf_iff_prefix, List.append_assoc]
    exact List.prefix_append _ _
  · rw [List.isSuffixOf_iff_suffix]
    exact List.suffix_append _ _

/-- An rpicam subprocess whose first stdout read returns two raw JPEG
bytes. -/
def rawJpegRpicam : RpicamProc := ⟨true, true, fun i => if i = 0 then [255, 216] else []⟩

/-- C9 counterexample: the csi-camera stream declares
`multipart/x-mixed-replace; boundary=frame` but writes the raw subprocess
bytes as its chunk, with no `--frame` boundary marker and no header —
the delivered chunk does not match the claimed framing. -/
theorem c9_counterexample :
    (csiStreamHandler rawJpegRpicam ⟨none⟩ 3).1.mimetype = streamMimetype ∧
    (csiStreamHandler rawJpegRpicam ⟨none⟩ 3).1.chunks = [[255, 216]] ∧
    boundaryMarker.isPrefixOf [255, 216] = false ∧
    framedChunk [255, 216] = false := by
  refine ⟨rfl, by decide, by decide, by decide⟩

/-- C9 (amended): every chunk the docker-microscope generator delivers is
a framed chunk — `--frame` boundary, Content-Type header, JPEG payload,
closing CRLF — matching the declared `boundary=frame` content type,
while the csi-camera generator is a raw passthrough: its output is the
unmodified sequence of subprocess stdout reads up to the first empty
read, with no framing added. -/
theorem c9_stream_framing (dev : V4L2Cam) (cdev : RpicamProc) (i fuel : Nat) :
    (dmStreamLoop dev i fuel).all framedChunk = true ∧
    csiReadLoop cdev i fuel =
      ((idxList i fuel).map cdev.stdoutChunks).takeWhile (fun c => !c.isEmpty) := by
  constructor
  · induction fuel generalizing i with
    | zero => rfl
    | succ fuel ih =>
      unfold dmStreamLoop
      cases hr : dev.readOk i
      · simp
      · cases he : dev.encodeOk i <;> simp [ih, dmChunk_framed]
  · induction fuel generalizing i with
    | zero => rfl
    | succ fuel ih =>
      unfold csiReadLoop idxList
      rw [List.map_cons, List.takeWhile_cons]
      cases hc : (cdev.stdoutChunks i).isEmpty <;> simp [hc, ih]

end MicroscopeCam
